import Mathlib

/-!
Verification of the natural-language specification of the `maxtext` glue
repository against a shallow Lean embedding of its three Python source files:

* `src/MaxText/maxengine_config.py` — selects a JetStream `ServerConfig`
  for the MaxText engine (`create_maxengine`, `get_server_config`);
* `src/MaxText/maxengine_server.py` — `main`, which requests the
  `'MaxtextInterleavedServer'` configuration;
* `src/pedagogical_examples/xaot_shardings.py` — a micro-benchmark that
  checks mesh-parallelism preconditions, generates synthetic data and layers,
  ahead-of-time compiles and pickles a training step, and times it.

External framework calls (JAX PRNG sampling, autodiff, the wall clock, the
file system) are modelled as explicit parameters or explicit state, as usual
for a shallow embedding.  Python numbers are modelled exactly: ints as
`Int`/`Nat` and float arithmetic by rational arithmetic over `ℚ`.
Python exceptions are modelled with `Except PyErr`.
-/

/-- The Python exceptions raised by the code under `src/`. -/
inductive PyErr where
  | notImplementedError
  | assertionError
  | zeroDivisionError
  | valueError
  deriving Repr, DecidableEq

/-! ## `src/MaxText/maxengine_config.py` -/

/-- Model of `config_lib.Devices`: `create_maxengine` immediately discards it
(`del devices`), so only its presence matters; we model it as a list of
device identifiers. -/
def Devices : Type := List Nat

/-- Model of `maxengine.MaxEngine`: the engine constructed from a config.
`maxengine` is an external import, so the engine is modelled as a value
determined by the constructor argument. -/
inductive Engine (Config : Type) where
  | maxEngine (config : Config)
  deriving DecidableEq

/-- `create_maxengine(devices, config)`: `del devices; return MaxEngine(config)`. -/
def create_maxengine {Config : Type} (devices : Devices) (config : Config) :
    Engine Config :=
  let _ := devices
  Engine.maxEngine config

/-- Model of `jetstream.core.config_lib.ServerConfig` restricted to the fields
this repository sets: slice descriptors are strings, engine-creation functions
take the devices and return an engine (as `functools.partial(create_maxengine,
config=config)` does). Python tuples are modelled as lists. -/
structure ServerConfig (Config : Type) where
  prefill_slices : List String
  generate_slices : List String
  interleaved_slices : List String
  prefill_engine_create_fns : List (Devices → Engine Config)
  generate_engine_create_fns : List (Devices → Engine Config)
  interleaved_engine_create_fns : List (Devices → Engine Config)

/-- `get_server_config(config_str, config)` from `maxengine_config.py`.
The call `jax.device_count()` is an external runtime read and is passed in
as the explicit parameter `deviceCount`.  The `case _` branch raises
`NotImplementedError`. -/
def get_server_config {Config : Type} (config_str : String) (config : Config)
    (deviceCount : Nat) : Except PyErr (ServerConfig Config) :=
  match config_str with
  | "MaxtextInterleavedServer" =>
      Except.ok
        { prefill_slices := []
          generate_slices := []
          interleaved_slices := ["tpu=" ++ toString deviceCount]
          prefill_engine_create_fns := []
          generate_engine_create_fns := []
          interleaved_engine_create_fns :=
            [fun devices => create_maxengine devices config] }
  | _ => Except.error PyErr.notImplementedError

/-! ## `src/MaxText/maxengine_server.py` -/

/-- The configuration string `main` passes to `get_server_config`, verbatim
from `maxengine_server.py`. -/
def main_config_str : String := "MaxtextInterleavedServer"

/-- The server configuration `main(config)` requests before calling
`server_lib.run`: `maxengine_config.get_server_config('MaxtextInterleavedServer',
config)`.  `server_lib` itself is external and out of scope. -/
def main_server_config {Config : Type} (config : Config) (deviceCount : Nat) :
    Except PyErr (ServerConfig Config) :=
  get_server_config main_config_str config deviceCount

/-! ## Theorems for claims C1, C2, C9 -/

/-- **C1.** For every config, `get_server_config('MaxtextInterleavedServer',
config)` returns a `ServerConfig` whose `prefill_slices`, `generate_slices`,
`prefill_engine_create_fns` and `generate_engine_create_fns` are empty,
whose `interleaved_slices` is the one-element tuple `'tpu='` followed by the
device count, and whose `interleaved_engine_create_fns` contains exactly the
partial application of `create_maxengine` to that config; and `main` requests
exactly this `'MaxtextInterleavedServer'` configuration. -/
theorem get_server_config_interleaved {Config : Type} (config : Config)
    (deviceCount : Nat) :
    get_server_config "MaxtextInterleavedServer" config deviceCount =
      Except.ok
        { prefill_slices := []
          generate_slices := []
          interleaved_slices := ["tpu=" ++ toString deviceCount]
          prefill_engine_create_fns := []
          generate_engine_create_fns := []
          interleaved_engine_create_fns :=
            [fun devices => create_maxengine devices config] } ∧
    main_server_config config deviceCount =
      get_server_config "MaxtextInterleavedServer" config deviceCount := by
  exact ⟨rfl, rfl⟩

/-- **C2.** `get_server_config(config_str, config)` returns a `ServerConfig`
if and only if `config_str = 'MaxtextInterleavedServer'`; for every other
string it raises `NotImplementedError`. -/
theorem get_server_config_ok_iff {Config : Type} (config_str : String)
    (config : Config) (deviceCount : Nat) :
    ((∃ sc, get_server_config config_str config deviceCount = Except.ok sc) ↔
      config_str = "MaxtextInterleavedServer") ∧
    (config_str ≠ "MaxtextInterleavedServer" →
      get_server_config config_str config deviceCount =
        Except.error PyErr.notImplementedError) := by
  constructor
  · constructor
    · rintro ⟨sc, hsc⟩
      by_contra hne
      unfold get_server_config at hsc
      split at hsc
      · exact hne rfl
      · exact Except.noConfusion hsc
    · intro h
      subst h
      exact ⟨_, rfl⟩
  · intro hne
    unfold get_server_config
    split
    · exact absurd rfl hne
    · rfl

/-- **C9.** `create_maxengine` is independent of its `devices` argument:
for any two devices values and any config it constructs the same engine,
determined by the config alone. -/
theorem create_maxengine_ignores_devices {Config : Type}
    (d1 d2 : Devices) (config : Config) :
    create_maxengine d1 config = create_maxengine d2 config := by
  rfl

/-! ## `src/pedagogical_examples/xaot_shardings.py` — `simple_timeit` -/

/-- Everything observable about one `simple_timeit(f, tries)` run: how many
times `f` was invoked, the list `outcomes` of recorded durations, and the
returned value (`sum(outcomes)/len(outcomes)`, a `ZeroDivisionError` when
`outcomes` is empty). -/
structure TimeitRun where
  calls : Nat
  outcomes : List ℚ
  result : Except PyErr ℚ

/-- `simple_timeit(f, tries)`.  The wall clock is external state, so the run
is modelled by `dur : Nat → ℚ`, where `dur i` is the wall-clock duration of
the `i`-th invocation of `f` (counting from 0).  The body first calls `f`
once to warm it up (invocation 0, not timed), then `tries` times records
`(e - s).total_seconds()` of invocation `1 + i`, and returns
`sum(outcomes)/len(outcomes)`. -/
def simple_timeit (dur : Nat → ℚ) (tries : Nat) : TimeitRun :=
  let outcomes := (List.range tries).map (fun i => dur (1 + i))
  { calls := 1 + tries
    outcomes := outcomes
    result :=
      if outcomes.length = 0 then Except.error PyErr.zeroDivisionError
      else Except.ok (outcomes.sum / (outcomes.length : ℚ)) }

/-- The default value of the `tries` argument of `simple_timeit`. -/
def simple_timeit_tries_default : Nat := 5

/-- **C4.** For `tries ≥ 1`, `simple_timeit(f, tries)` returns the arithmetic
mean of exactly `tries` individual wall-clock durations of calls to `f`
(the sum of the recorded durations divided by their count), and `tries`
defaults to 5. -/
theorem simple_timeit_returns_mean (dur : Nat → ℚ) (tries : Nat)
    (h : 1 ≤ tries) :
    (simple_timeit dur tries).outcomes.length = tries ∧
    (simple_timeit dur tries).result =
      Except.ok ((simple_timeit dur tries).outcomes.sum /
        ((simple_timeit dur tries).outcomes.length : ℚ)) ∧
    simple_timeit_tries_default = 5 := by
  have hlen : (simple_timeit dur tries).outcomes.length = tries := by
    simp [simple_timeit]
  refine ⟨hlen, ?_, rfl⟩
  have hne : ¬ ((List.range tries).map (fun i => dur (1 + i))).length = 0 := by
    simp
    omega
  simp only [simple_timeit, hne, if_false]

/-- **C10.** `simple_timeit(f, tries)` invokes `f` exactly `tries + 1` times
(one warm-up plus the `tries` timed invocations), and the warm-up duration
never contributes to anything observable: replacing the duration of
invocation 0 by any other value leaves the whole run, in particular the
returned average, unchanged. -/
theorem simple_timeit_warmup_not_recorded (dur : Nat → ℚ) (w w' : ℚ)
    (tries : Nat) :
    (simple_timeit (Function.update dur 0 w) tries).calls = tries + 1 ∧
    simple_timeit (Function.update dur 0 w) tries =
      simple_timeit (Function.update dur 0 w') tries := by
  constructor
  · simp [simple_timeit, Nat.add_comm]
  · have houts : (List.range tries).map (fun i => Function.update dur 0 w (1 + i)) =
        (List.range tries).map (fun i => Function.update dur 0 w' (1 + i)) := by
      apply List.map_congr_left
      intro i _
      rw [Function.update_noteq (by omega), Function.update_noteq (by omega)]
    simp only [simple_timeit, houts]

/-- Witness for C4 at `dur i = i`, `tries = 3`. -/
theorem simple_timeit_returns_mean_witness :
    1 ≤ 3 ∧
    ((simple_timeit (fun i => (i : ℚ)) 3).outcomes.length = 3 ∧
    (simple_timeit (fun i => (i : ℚ)) 3).result =
      Except.ok ((simple_timeit (fun i => (i : ℚ)) 3).outcomes.sum /
        ((simple_timeit (fun i => (i : ℚ)) 3).outcomes.length : ℚ)) ∧
    simple_timeit_tries_default = 5) :=
  ⟨by decide, simple_timeit_returns_mean (fun i => (i : ℚ)) 3 (by decide)⟩

/-! ## `xaot_shardings.py` — mesh-parallelism preconditions -/

/-- `dcn_parallelism = [args.dcn_data_parallelism, args.dcn_fsdp_parallelism,
args.dcn_tensor_parallelism]` (argparse `type=int`, so `Int`). -/
def dcn_parallelism (dd df dt : Int) : List Int := [dd, df, dt]

/-- `ici_parallelism = [args.ici_data_parallelism, args.ici_fsdp_parallelism,
args.ici_tensor_parallelism]`. -/
def ici_parallelism (idp ifp itp : Int) : List Int := [idp, ifp, itp]

/-- The two `assert` statements the script runs before building any device
mesh: `assert len(devices) > 1` and
`assert np.product(dcn_parallelism) * np.product(ici_parallelism) ==
num_devices`, in that order; a failing `assert` raises `AssertionError`. -/
def mesh_precondition_checks (numDevices : Nat) (dcn ici : List Int) :
    Except PyErr Unit :=
  if 1 < numDevices then
    if dcn.prod * ici.prod = (numDevices : Int) then Except.ok ()
    else Except.error PyErr.assertionError
  else Except.error PyErr.assertionError

/-- **C7.** Before building any device mesh the benchmark checks its
preconditions and fails otherwise: the checks succeed exactly when there are
at least two devices and the product of the three dcn parallelism arguments
times the product of the three ici parallelism arguments equals the number of
devices; under those preconditions neither assertion failure branch is
reachable. -/
theorem mesh_precondition_checks_ok_iff (numDevices : Nat)
    (dd df dt idp ifp itp : Int) :
    mesh_precondition_checks numDevices (dcn_parallelism dd df dt)
        (ici_parallelism idp ifp itp) = Except.ok () ↔
      (2 ≤ numDevices ∧ (dd * df * dt) * (idp * ifp * itp) = numDevices) := by
  unfold mesh_precondition_checks dcn_parallelism ici_parallelism
  simp only [List.prod_cons, List.prod_nil, mul_one]
  split_ifs with h1 h2
  · constructor
    · intro _
      exact ⟨h1, by rw [← h2]; ring⟩
    · intro _
      rfl
  · constructor
    · intro hcontra
      exact hcontra.elim
    · rintro ⟨-, heq⟩
      exact absurd (by rw [← heq]; ring) h2
  · constructor
    · intro hcontra
      exact hcontra.elim
    · rintro ⟨h2n, -⟩
      exact absurd h2n (by omega)

/-! ## `xaot_shardings.py` — model sizes and throughput -/

/-- `D_FF = 4 * D_EMB`. -/
def D_FF (d_emb : Nat) : Nat := 4 * d_emb

/-- `BATCH = len(devices) * args.batch_size`. -/
def BATCH (num_devices batch_size : Nat) : Nat := num_devices * batch_size

/-- `parameters = 2 * D_FF * D_EMB * NUM_LAYERS`. -/
def parameters (d_emb num_layers : Nat) : Nat :=
  2 * D_FF d_emb * d_emb * num_layers

/-- `TFLOPs_per_device = parameters * 6 * BATCH / 10**12 / len(devices)`;
Python float division modelled exactly over `ℚ`. -/
def TFLOPs_per_device (d_emb num_layers num_devices batch_size : Nat) : ℚ :=
  (parameters d_emb num_layers : ℚ) * 6 *
    (BATCH num_devices batch_size : ℚ) / 10 ^ 12 / (num_devices : ℚ)

/-- The value printed as `TFLOP/s`: `TFLOPs_per_device / time`. -/
def printed_TFLOP_per_s (d_emb num_layers num_devices batch_size : Nat)
    (time : ℚ) : ℚ :=
  TFLOPs_per_device d_emb num_layers num_devices batch_size / time

/-- **C3.** With `parameters = 2 * D_FF * D_EMB * NUM_LAYERS`,
`D_FF = 4 * embedding_dimension` and `BATCH = num_devices * batch_size`, the
per-device throughput figure `parameters * 6 * BATCH / 10^12 / num_devices`
equals `48 * embedding_dimension^2 * num_layers * batch_size / 10^12` for
every choice of the arguments — independent of the number of devices — and
the printed TFLOP/s value is this figure divided by the measured average
time. -/
theorem TFLOPs_per_device_closed_form (d_emb num_layers num_devices batch_size : Nat)
    (h : 0 < num_devices) (time : ℚ) :
    TFLOPs_per_device d_emb num_layers num_devices batch_size =
      48 * (d_emb : ℚ) ^ 2 * (num_layers : ℚ) * (batch_size : ℚ) / 10 ^ 12 ∧
    printed_TFLOP_per_s d_emb num_layers num_devices batch_size time =
      (48 * (d_emb : ℚ) ^ 2 * (num_layers : ℚ) * (batch_size : ℚ) / 10 ^ 12) /
        time := by
  have hn : (num_devices : ℚ) ≠ 0 := by
    exact_mod_cast Nat.pos_iff_ne_zero.mp h
  have hmain : TFLOPs_per_device d_emb num_layers num_devices batch_size =
      48 * (d_emb : ℚ) ^ 2 * (num_layers : ℚ) * (batch_size : ℚ) / 10 ^ 12 := by
    unfold TFLOPs_per_device parameters BATCH D_FF
    push_cast
    field_simp
    ring
  exact ⟨hmain, by rw [printed_TFLOP_per_s, hmain]⟩

/-- Witness for C3 at `d_emb = 2`, `num_layers = 3`, `num_devices = 4`,
`batch_size = 5`, `time = 7`. -/
theorem TFLOPs_per_device_closed_form_witness :
    0 < 4 ∧
    (TFLOPs_per_device 2 3 4 5 =
      48 * (2 : ℚ) ^ 2 * (3 : ℚ) * (5 : ℚ) / 10 ^ 12 ∧
    printed_TFLOP_per_s 2 3 4 5 7 =
      (48 * (2 : ℚ) ^ 2 * (3 : ℚ) * (5 : ℚ) / 10 ^ 12) / 7) :=
  ⟨by decide, TFLOPs_per_device_closed_form 2 3 4 5 (by decide) 7⟩

/-! ## `xaot_shardings.py` — the three `xaot_save` pickle writes (C8) -/

/-- The three executables the script serializes, in a model where distinct
compiled functions serialize to distinct byte strings. -/
inductive ExecKind where
  | genDataExec
  | genLayersExec
  | trainingStepExec
  deriving Repr, DecidableEq

/-- A flat file system: file name to content of the pickle file, if any. -/
def FileSys : Type := String → Option ExecKind

/-- The `pickle.dump` writes performed by the three `xaot_save` calls of the
script (with `save_xaot = True`), in program order: `gen_data` to
`'data_sharding.pkl'`, `gen_layers` to `'layers_sharding.pkl'`, then
`training_step` again to `'layers_sharding.pkl'`. -/
def script_pickle_writes : List (String × ExecKind) :=
  [("data_sharding.pkl", ExecKind.genDataExec),
   ("layers_sharding.pkl", ExecKind.genLayersExec),
   ("layers_sharding.pkl", ExecKind.trainingStepExec)]

/-- `open(pickle_filename, "wb")` + `pickle.dump`: replace the file's
content. -/
def write_file (fs : FileSys) (w : String × ExecKind) : FileSys :=
  fun name => if name = w.1 then some w.2 else fs name

/-- The file-system effect of running the script's save section. -/
def run_script_saves (fs : FileSys) : FileSys :=
  script_pickle_writes.foldl write_file fs

/-- The file system before the script runs: none of its output files exist. -/
def empty_fs : FileSys := fun _ => none

/-- **C8.** The third save writes the serialized `training_step` executable to
`'layers_sharding.pkl'`, the same file the second save used for the serialized
`gen_layers` executable; after the script completes no file holds the
serialized `gen_layers` executable, and only `'data_sharding.pkl'` and the
overwritten `'layers_sharding.pkl'` exist. -/
theorem script_saves_overwrite_gen_layers :
    script_pickle_writes.get? 1 =
      some ("layers_sharding.pkl", ExecKind.genLayersExec) ∧
    script_pickle_writes.get? 2 =
      some ("layers_sharding.pkl", ExecKind.trainingStepExec) ∧
    run_script_saves empty_fs "layers_sharding.pkl" =
      some ExecKind.trainingStepExec ∧
    run_script_saves empty_fs "data_sharding.pkl" =
      some ExecKind.genDataExec ∧
    (∀ name, run_script_saves empty_fs name ≠ some ExecKind.genLayersExec) ∧
    (∀ name, name ≠ "layers_sharding.pkl" → name ≠ "data_sharding.pkl" →
      run_script_saves empty_fs name = none) := by
  refine ⟨rfl, rfl, rfl, rfl, ?_, ?_⟩
  · intro name
    simp only [run_script_saves, script_pickle_writes, List.foldl, write_file,
      empty_fs]
    split_ifs <;> simp
  · intro name h1 h2
    simp only [run_script_saves, script_pickle_writes, List.foldl, write_file,
      empty_fs]
    split_ifs <;> simp_all

/-- Witness for C8's universally quantified conjuncts at a concrete file
name. -/
theorem script_saves_overwrite_gen_layers_witness :
    run_script_saves empty_fs "other.pkl" ≠ some ExecKind.genLayersExec ∧
    run_script_saves empty_fs "other.pkl" = none :=
  ⟨script_saves_overwrite_gen_layers.2.2.2.2.1 "other.pkl",
   script_saves_overwrite_gen_layers.2.2.2.2.2 "other.pkl"
     (by decide) (by decide)⟩

/-! ## `xaot_shardings.py` — synthetic data, layers and the training step -/

/-- Model of a JAX array: a dtype tag, a shape, and the (row-major) entries,
float entries modelled exactly over `ℚ`. -/
structure Arr where
  dtype : String
  shape : List Nat
  data : List ℚ
  deriving Repr, DecidableEq

/-- Scalar times array, as in `1e-4 * a`: elementwise; the array's shape and
dtype are kept (a Python float scalar is weakly typed, so the bfloat16 array
dtype wins under JAX promotion). -/
def Arr.smul (c : ℚ) (a : Arr) : Arr :=
  { dtype := a.dtype, shape := a.shape, data := a.data.map (fun x => c * x) }

/-- Array subtraction `a - b`: elementwise on same-shaped arrays, keeping the
left operand's shape and dtype. -/
def Arr.sub (a b : Arr) : Arr :=
  { dtype := a.dtype, shape := a.shape,
    data := List.zipWith (fun x y => x - y) a.data b.data }

theorem Arr.smul_shape (c : ℚ) (a : Arr) : (Arr.smul c a).shape = a.shape := rfl

theorem Arr.smul_dtype (c : ℚ) (a : Arr) : (Arr.smul c a).dtype = a.dtype := rfl

theorem Arr.sub_shape (a b : Arr) : (Arr.sub a b).shape = a.shape := rfl

/-- A layer: the Python dict modelled as an association list in insertion
order. -/
abbrev Layer : Type := List (String × Arr)

/-- Model of a `jax.random` PRNG key. -/
abbrev PRNGKey : Type := Nat

/-- `gen_layer(random_key)`.  The external JAX primitives
`jax.random.split(key, num)` and `jax.random.normal(key, shape, dtype)` are
passed in as `split` and `normal`.  The body draws
`keys = jax.random.split(random_key, num = 4)` and returns the dict with
`EMB2FF` and `FF2EMB` mapped to `1e-4 * normal(keys[i], (D_FF, D_EMB),
dtype=bfloat16)` for `i = 0, 1`. -/
def gen_layer (split : PRNGKey → Nat → List PRNGKey)
    (normal : PRNGKey → List Nat → String → Arr)
    (d_emb : Nat) (random_key : PRNGKey) : Layer :=
  let keys := split random_key 4
  [("EMB2FF", Arr.smul (1/10000)
      (normal (keys.getD 0 random_key) [D_FF d_emb, d_emb] "bfloat16")),
   ("FF2EMB", Arr.smul (1/10000)
      (normal (keys.getD 1 random_key) [D_FF d_emb, d_emb] "bfloat16"))]

/-- `gen_layers(random_key)`: `NUM_LAYERS` times, split the key
(`random_key, sub_key = jax.random.split(random_key)`) and append
`gen_layer(sub_key)`; returns the tuple of layers. -/
def gen_layers (split : PRNGKey → Nat → List PRNGKey)
    (normal : PRNGKey → List Nat → String → Arr)
    (d_emb : Nat) : Nat → PRNGKey → List Layer
  | 0, _ => []
  | Nat.succ n, random_key =>
      let ks := split random_key 2
      gen_layer split normal d_emb (ks.getD 1 random_key) ::
        gen_layers split normal d_emb n (ks.getD 0 random_key)

/-- `gen_data(random_key)`: `jax.random.uniform(random_key, (BATCH, D_EMB),
dtype=bfloat16)`, with `uniform` the external JAX primitive. -/
def gen_data (uniform : PRNGKey → List Nat → String → Arr)
    (num_devices batch_size d_emb : Nat) (random_key : PRNGKey) : Arr :=
  uniform random_key [BATCH num_devices batch_size, d_emb] "bfloat16"

/-- The keys of a layer dict, in order. -/
def layerKeys (l : Layer) : List String := l.map Prod.fst

/-- The per-layer key lists of a layer tuple: its tree structure. -/
def treeKeys (ls : List Layer) : List (List String) := ls.map layerKeys

/-- The per-leaf shapes of a layer dict. -/
def layerShapes (l : Layer) : List (List Nat) :=
  l.map (fun kv => kv.2.shape)

/-- The per-leaf shapes of a layer tuple. -/
def treeShapes (ls : List Layer) : List (List (List Nat)) :=
  ls.map layerShapes

/-- Every member of `gen_layers`' result is a `gen_layer` of some sub-key. -/
theorem gen_layers_mem (split : PRNGKey → Nat → List PRNGKey)
    (normal : PRNGKey → List Nat → String → Arr) (d_emb : Nat) :
    ∀ (n : Nat) (key : PRNGKey) layer,
      layer ∈ gen_layers split normal d_emb n key →
      ∃ sub, layer = gen_layer split normal d_emb sub := by
  intro n
  induction n with
  | zero =>
    intro key layer h
    exact absurd h (List.not_mem_nil layer)
  | succ m ih =>
    intro key layer h
    rcases List.mem_cons.mp h with h1 | h2
    · exact ⟨_, h1⟩
    · exact ih _ layer h2

/-- **C6.** For every random key, `gen_layers` returns a tuple of exactly
`num_layers` layers, each a dict with exactly the keys `EMB2FF` and `FF2EMB`
mapping to bfloat16 arrays of shape `(D_FF, D_EMB) = (4 * embedding_dimension,
embedding_dimension)`; and `gen_data` returns a bfloat16 array of shape
`(BATCH, embedding_dimension)` with `BATCH = num_devices * batch_size`.
The hypotheses are the JAX contract that `jax.random.normal` and
`jax.random.uniform` return an array of the requested shape and dtype. -/
theorem gen_layers_gen_data_shapes (split : PRNGKey → Nat → List PRNGKey)
    (normal uniform : PRNGKey → List Nat → String → Arr)
    (hn : ∀ k s dt, (normal k s dt).shape = s ∧ (normal k s dt).dtype = dt)
    (hu : ∀ k s dt, (uniform k s dt).shape = s ∧ (uniform k s dt).dtype = dt)
    (d_emb num_layers num_devices batch_size : Nat) (key : PRNGKey) :
    (gen_layers split normal d_emb num_layers key).length = num_layers ∧
    (∀ layer ∈ gen_layers split normal d_emb num_layers key,
      layerKeys layer = ["EMB2FF", "FF2EMB"] ∧
      ∀ kv ∈ layer, kv.2.shape = [4 * d_emb, d_emb] ∧
        kv.2.dtype = "bfloat16") ∧
    (gen_data uniform num_devices batch_size d_emb key).shape =
      [num_devices * batch_size, d_emb] ∧
    (gen_data uniform num_devices batch_size d_emb key).dtype =
      "bfloat16" := by
  refine ⟨?_, ?_, ?_, ?_⟩
  · induction num_layers generalizing key with
    | zero => rfl
    | succ m ih => simpa [gen_layers] using ih _
  · intro layer hmem
    obtain ⟨sub, rfl⟩ := gen_layers_mem split normal d_emb num_layers key layer hmem
    constructor
    · rfl
    · intro kv hkv
      have hshape : ∀ k, (Arr.smul (1/10000)
          (normal k [D_FF d_emb, d_emb] "bfloat16")).shape = [4 * d_emb, d_emb] ∧
          (Arr.smul (1/10000)
            (normal k [D_FF d_emb, d_emb] "bfloat16")).dtype = "bfloat16" := by
        intro k
        rw [Arr.smul_shape, Arr.smul_dtype, (hn k _ _).1, (hn k _ _).2]
        exact ⟨by rfl, rfl⟩
      rcases List.mem_cons.mp hkv with h1 | h2
      · subst h1
        exact hshape _
      · rcases List.mem_cons.mp h2 with h3 | h4
        · subst h3
          exact hshape _
        · exact absurd h4 (List.not_mem_nil kv)
  · rw [gen_data, (hu key _ _).1, BATCH]
  · exact (hu key _ _).2

/-- Witness for C6 with concrete PRNG primitives that satisfy the JAX
shape/dtype contract, at `d_emb = 2`, `num_layers = 1`, `num_devices = 2`,
`batch_size = 3`, key 0. -/
theorem gen_layers_gen_data_shapes_witness :
    (gen_layers (fun k n => (List.range n).map (fun i => k + i))
        (fun _ s dt => { dtype := dt, shape := s, data := [] }) 2 1 0).length = 1 ∧
    (∀ layer ∈ gen_layers (fun k n => (List.range n).map (fun i => k + i))
        (fun _ s dt => { dtype := dt, shape := s, data := [] }) 2 1 0,
      layerKeys layer = ["EMB2FF", "FF2EMB"] ∧
      ∀ kv ∈ layer, kv.2.shape = [4 * 2, 2] ∧ kv.2.dtype = "bfloat16") ∧
    (gen_data (fun _ s dt => { dtype := dt, shape := s, data := [] })
        2 3 2 0).shape = [2 * 3, 2] ∧
    (gen_data (fun _ s dt => { dtype := dt, shape := s, data := [] })
        2 3 2 0).dtype = "bfloat16" :=
  gen_layers_gen_data_shapes (fun k n => (List.range n).map (fun i => k + i))
    (fun _ s dt => { dtype := dt, shape := s, data := [] })
    (fun _ s dt => { dtype := dt, shape := s, data := [] })
    (fun _ _ _ => ⟨rfl, rfl⟩) (fun _ _ _ => ⟨rfl, rfl⟩) 2 1 2 3 0

/-! ## `xaot_shardings.py` — `training_step` (C5) -/

/-- `jax.tree_map(f, d1, d2)` restricted to two layer dicts: Python requires
the two dicts to have the same key structure and raises `ValueError`
otherwise. -/
def dict_map2 (f : Arr → Arr → Arr) : Layer → Layer → Except PyErr Layer
  | [], [] => Except.ok []
  | (k1, a) :: t1, (k2, b) :: t2 =>
      if k1 = k2 then
        match dict_map2 f t1 t2 with
        | Except.ok t => Except.ok ((k1, f a b) :: t)
        | Except.error e => Except.error e
      else Except.error PyErr.valueError
  | _, _ => Except.error PyErr.valueError

/-- `jax.tree_map(f, t1, t2)` on two tuples of layer dicts: requires equal
tuple lengths and matching dict structures, else raises `ValueError`. -/
def tree_map2 (f : Arr → Arr → Arr) :
    List Layer → List Layer → Except PyErr (List Layer)
  | [], [] => Except.ok []
  | l1 :: t1, l2 :: t2 =>
      match dict_map2 f l1 l2, tree_map2 f t1 t2 with
      | Except.ok h, Except.ok t => Except.ok (h :: t)
      | Except.error e, _ => Except.error e
      | Except.ok _, Except.error e => Except.error e
  | _, _ => Except.error PyErr.valueError

/-- `training_step(in_act, in_layers)`.  Here `mlag` models
`multiply_layers_and_grad = jax.value_and_grad(multiply_layers_with_loss,
argnums=[1])` — external JAX autodiff of `multiply_layers_with_loss` (the sum
of the network's output) — returning the loss value together with
`grad_layers[0]`, the gradient with respect to `in_layers`.  The update is
`jax.tree_map(lambda param, grad: param - 1e-4 * grad, in_layers,
grad_layers[0])`. -/
def training_step (mlag : Arr → List Layer → ℚ × List Layer)
    (in_act : Arr) (in_layers : List Layer) : Except PyErr (List Layer) :=
  let grad_layers := (mlag in_act in_layers).2
  tree_map2 (fun param grad => Arr.sub param (Arr.smul (1/10000) grad))
    in_layers grad_layers

/-- On dicts with the same keys, `dict_map2` succeeds and acts leafwise. -/
theorem dict_map2_ok (f : Arr → Arr → Arr) :
    ∀ (l g : Layer), layerKeys g = layerKeys l →
      dict_map2 f l g =
        Except.ok (List.zipWith (fun kv gv => (kv.1, f kv.2 gv.2)) l g) := by
  intro l
  induction l with
  | nil =>
    intro g h
    cases g with
    | nil => rfl
    | cons ghd gtl => simp [layerKeys] at h
  | cons hd tl ih =>
    intro g h
    cases g with
    | nil => simp [layerKeys] at h
    | cons ghd gtl =>
      obtain ⟨k1, a⟩ := hd
      obtain ⟨k2, b⟩ := ghd
      simp only [layerKeys, List.map_cons, List.cons.injEq] at h
      obtain ⟨hk, ht⟩ := h
      simp [dict_map2, hk, ih gtl ht, layerKeys]

/-- On tuples with the same tree structure, `tree_map2` succeeds and acts
leafwise. -/
theorem tree_map2_ok (f : Arr → Arr → Arr) :
    ∀ (l g : List Layer), treeKeys g = treeKeys l →
      tree_map2 f l g =
        Except.ok (List.zipWith (fun la ga =>
          List.zipWith (fun kv gv => (kv.1, f kv.2 gv.2)) la ga) l g) := by
  intro l
  induction l with
  | nil =>
    intro g h
    cases g with
    | nil => rfl
    | cons ghd gtl => simp [treeKeys] at h
  | cons hd tl ih =>
    intro g h
    cases g with
    | nil => simp [treeKeys] at h
    | cons ghd gtl =>
      simp only [treeKeys, List.map_cons, List.cons.injEq] at h
      obtain ⟨hk, ht⟩ := h
      simp [tree_map2, dict_map2_ok f hd ghd hk, ih gtl ht]

/-- The leafwise update keeps each dict's keys. -/
theorem zip_update_keys (f : Arr → Arr → Arr) :
    ∀ (la ga : Layer), layerKeys ga = layerKeys la →
      layerKeys (List.zipWith (fun kv gv => (kv.1, f kv.2 gv.2)) la ga) =
        layerKeys la := by
  intro la
  induction la with
  | nil =>
    intro ga _
    rfl
  | cons hd tl ih =>
    intro ga h
    cases ga with
    | nil => simp [layerKeys] at h
    | cons ghd gtl =>
      simp only [layerKeys, List.map_cons, List.cons.injEq] at h
      have htl := ih gtl h.2
      simp only [layerKeys] at htl
      simp [layerKeys, List.zipWith_cons_cons, htl]

/-- The leafwise update keeps the tree structure. -/
theorem zip_update_tree_keys (f : Arr → Arr → Arr) :
    ∀ (l g : List Layer), treeKeys g = treeKeys l →
      treeKeys (List.zipWith (fun la ga =>
          List.zipWith (fun kv gv => (kv.1, f kv.2 gv.2)) la ga) l g) =
        treeKeys l := by
  intro l
  induction l with
  | nil =>
    intro g _
    rfl
  | cons hd tl ih =>
    intro g h
    cases g with
    | nil => simp [treeKeys] at h
    | cons ghd gtl =>
      simp only [treeKeys, List.map_cons, List.cons.injEq] at h
      simp only [List.zipWith, treeKeys, List.map_cons, List.cons.injEq]
      exact ⟨zip_update_keys f hd ghd h.1, ih gtl h.2⟩

/-- A leafwise update whose leaves keep the parameter's shape keeps every
shape in a dict. -/
theorem zip_update_shapes (f : Arr → Arr → Arr)
    (hf : ∀ a b, (f a b).shape = a.shape) :
    ∀ (la ga : Layer), layerKeys ga = layerKeys la →
      layerShapes (List.zipWith (fun kv gv => (kv.1, f kv.2 gv.2)) la ga) =
        layerShapes la := by
  intro la
  induction la with
  | nil =>
    intro ga _
    rfl
  | cons hd tl ih =>
    intro ga h
    cases ga with
    | nil => simp [layerKeys] at h
    | cons ghd gtl =>
      simp only [layerKeys, List.map_cons, List.cons.injEq] at h
      have htl := ih gtl h.2
      simp only [layerShapes] at htl
      simp [layerShapes, List.zipWith_cons_cons, htl, hf]

/-- A leafwise update whose leaves keep the parameter's shape keeps every
shape in the tree. -/
theorem zip_update_tree_shapes (f : Arr → Arr → Arr)
    (hf : ∀ a b, (f a b).shape = a.shape) :
    ∀ (l g : List Layer), treeKeys g = treeKeys l →
      treeShapes (List.zipWith (fun la ga =>
          List.zipWith (fun kv gv => (kv.1, f kv.2 gv.2)) la ga) l g) =
        treeShapes l := by
  intro l
  induction l with
  | nil =>
    intro g _
    rfl
  | cons hd tl ih =>
    intro g h
    cases g with
    | nil => simp [treeKeys] at h
    | cons ghd gtl =>
      simp only [treeKeys, List.map_cons, List.cons.injEq] at h
      simp only [List.zipWith, treeShapes, List.map_cons, List.cons.injEq]
      exact ⟨zip_update_shapes f hf hd ghd h.1, ih gtl h.2⟩

/-- **C5.** For every input activation and every tuple of layers,
`training_step` returns an updated layer tuple with the same tree structure as
the input (same number of layers, same keys, same shapes), in which every
parameter leaf equals the input parameter minus `1e-4` times the gradient of
`multiply_layers_with_loss` with respect to that parameter.  The hypothesis is
the JAX autodiff contract that the returned gradient has the tree structure of
the differentiated argument. -/
theorem training_step_param_update (mlag : Arr → List Layer → ℚ × List Layer)
    (in_act : Arr) (in_layers : List Layer)
    (h : treeKeys (mlag in_act in_layers).2 = treeKeys in_layers) :
    ∃ out, training_step mlag in_act in_layers = Except.ok out ∧
      out = List.zipWith (fun layer grad_layer =>
          List.zipWith (fun param grad =>
            (param.1, Arr.sub param.2 (Arr.smul (1/10000) grad.2)))
            layer grad_layer)
        in_layers (mlag in_act in_layers).2 ∧
      out.length = in_layers.length ∧
      treeKeys out = treeKeys in_layers ∧
      treeShapes out = treeShapes in_layers := by
  refine ⟨_, tree_map2_ok (fun param grad =>
      Arr.sub param (Arr.smul (1/10000) grad)) in_layers
      (mlag in_act in_layers).2 h, rfl, ?_, ?_, ?_⟩
  · have hlen : (mlag in_act in_layers).2.length = in_layers.length := by
      have := congrArg List.length h
      simpa [treeKeys] using this
    simp [hlen]
  · exact zip_update_tree_keys (fun a b => Arr.sub a (Arr.smul (1/10000) b))
      in_layers (mlag in_act in_layers).2 h
  · exact zip_update_tree_shapes (fun a b => Arr.sub a (Arr.smul (1/10000) b))
      (fun a b => rfl) in_layers (mlag in_act in_layers).2 h

/-- Witness for C5 at a one-layer tuple and a gradient oracle returning the
layers themselves as gradient (so the structure contract holds by
definition). -/
theorem training_step_param_update_witness :
    ∃ out, training_step (fun _ layers => ((0 : ℚ), layers))
        { dtype := "bfloat16", shape := [1, 2], data := [0, 0] }
        [[("EMB2FF", { dtype := "bfloat16", shape := [8, 2],
                       data := [1, 2] }),
          ("FF2EMB", { dtype := "bfloat16", shape := [8, 2],
                       data := [3, 4] })]] = Except.ok out ∧
      out = List.zipWith (fun layer grad_layer =>
          List.zipWith (fun param grad =>
            (param.1, Arr.sub param.2 (Arr.smul (1/10000) grad.2)))
            layer grad_layer)
        [[("EMB2FF", { dtype := "bfloat16", shape := [8, 2],
                       data := [1, 2] }),
          ("FF2EMB", { dtype := "bfloat16", shape := [8, 2],
                       data := [3, 4] })]]
        ((fun (_ : Arr) (layers : List Layer) => ((0 : ℚ), layers))
          { dtype := "bfloat16", shape := [1, 2], data := [0, 0] }
          [[("EMB2FF", { dtype := "bfloat16", shape := [8, 2],
                         data := [1, 2] }),
            ("FF2EMB", { dtype := "bfloat16", shape := [8, 2],
                         data := [3, 4] })]]).2 ∧
      out.length = 1 ∧
      treeKeys out = treeKeys
        [[("EMB2FF", { dtype := "bfloat16", shape := [8, 2],
                       data := [1, 2] }),
          ("FF2EMB", { dtype := "bfloat16", shape := [8, 2],
                       data := [3, 4] })]] ∧
      treeShapes out = treeShapes
        [[("EMB2FF", { dtype := "bfloat16", shape := [8, 2],
                       data := [1, 2] }),
          ("FF2EMB", { dtype := "bfloat16", shape := [8, 2],
                       data := [3, 4] })]] :=
  training_step_param_update (fun _ layers => ((0 : ℚ), layers))
    { dtype := "bfloat16", shape := [1, 2], data := [0, 0] }
    [[("EMB2FF", { dtype := "bfloat16", shape := [8, 2], data := [1, 2] }),
      ("FF2EMB", { dtype := "bfloat16", shape := [8, 2], data := [3, 4] })]]
    rfl

/-! ## Concrete instantiations of the remaining quantified claims -/

/-- Witness for C2 at the concrete non-matching string `"foo"`. -/
theorem get_server_config_ok_iff_witness :
    ((∃ sc, get_server_config "foo" (0 : Nat) 1 = Except.ok sc) ↔
      "foo" = "MaxtextInterleavedServer") ∧
    ("foo" ≠ "MaxtextInterleavedServer" →
      get_server_config "foo" (0 : Nat) 1 =
        Except.error PyErr.notImplementedError) :=
  get_server_config_ok_iff "foo" 0 1

/-- Witness for C7 at the script's defaults on a 4-device topology. -/
theorem mesh_precondition_checks_ok_iff_witness :
    mesh_precondition_checks 4 (dcn_parallelism 1 1 1)
        (ici_parallelism 1 4 1) = Except.ok () ↔
      (2 ≤ 4 ∧ ((1 : Int) * 1 * 1) * (1 * 4 * 1) = (4 : Nat)) :=
  mesh_precondition_checks_ok_iff 4 1 1 1 1 4 1

/-- Witness for C10: two runs differing only in the warm-up duration. -/
theorem simple_timeit_warmup_not_recorded_witness :
    (simple_timeit (Function.update (fun i => (i : ℚ)) 0 5) 2).calls = 2 + 1 ∧
    simple_timeit (Function.update (fun i => (i : ℚ)) 0 5) 2 =
      simple_timeit (Function.update (fun i => (i : ℚ)) 0 7) 2 :=
  simple_timeit_warmup_not_recorded (fun i => (i : ℚ)) 5 7 2
